import Mathlib

/-!
Shallow embedding of the two-stage dot renderer (src/surface.rs and
src/surface_view.rs) and proofs of the spec claims about it.

Modelling conventions:
- f32 constants are represented as `Rat`; the program only stores them
  (no floating-point arithmetic is ever performed on them in the code
  under consideration).
- GPU buffers are represented by their typed CPU-side contents; the byte
  length of an instance buffer is derived from the repr(C) size of `Dot`
  (32 bytes), matching bytemuck::cast_slice.
- GPU handles (device, queue) carry no data relevant to the claims and
  are dropped from the constructors.
- Commands recorded into a render pass are reified as a `RenderCmd` list;
  resources owned by a surface are referred to symbolically (the source
  passes references such as &self.texture_view).
-/

namespace Gpu

/-- RGBA color record (wgpu::Color and the f32x4 colors of the source). -/
structure Color4 where
  r : Rat
  g : Rat
  b : Rat
  a : Rat
deriving DecidableEq

/-- Color constant wgpu::Color::GREEN. -/
def Color.GREEN : Color4 := ⟨0, 1, 0, 1⟩

/-- Vertex formats used by the source (wgpu::VertexFormat). -/
inductive VertexFormat
  | Float32x2
  | Float32
  | Float32x4
deriving DecidableEq

/-- Byte size of a vertex format. -/
def vertexFormatSize : VertexFormat → Nat
  | .Float32x2 => 8
  | .Float32 => 4
  | .Float32x4 => 16

/-- One wgpu::VertexAttribute: shader location, byte offset, format. -/
structure VertexAttribute where
  shader_location : Nat
  offset : Nat
  format : VertexFormat
deriving DecidableEq

/-- Offset accumulation of the wgpu vertex_attr_array macro: each
attribute starts where the previous one ended. -/
def attrArrayGo (loc : Nat) (offset : Nat) : List VertexFormat → List VertexAttribute
  | [] => []
  | f :: fs => ⟨loc, offset, f⟩ :: attrArrayGo (loc + 1) (offset + vertexFormatSize f) fs

/-- Semantics of wgpu::vertex_attr_array![loc0 => F0, ...]. -/
def attrArray (startLoc : Nat) (formats : List VertexFormat) : List VertexAttribute :=
  attrArrayGo startLoc 0 formats

/-- Step mode of a vertex buffer (wgpu::VertexStepMode). -/
inductive VertexStepMode
  | Vertex
  | Instance
deriving DecidableEq

/-- One wgpu::VertexBufferLayout. -/
structure VertexBufferLayout where
  array_stride : Nat
  step_mode : VertexStepMode
  attributes : List VertexAttribute
deriving DecidableEq

/-- Byte size of one f32. -/
def f32Size : Nat := 4

/-- Quad corner vertex (struct Vertex in surface.rs): a 2D position. -/
structure Vertex where
  position : Rat × Rat
deriving DecidableEq

/-- repr(C) byte size of Vertex: two f32 fields. -/
def Vertex.byteSize : Nat := 2 * f32Size

/-- Vertex::ATTRIBUTES = vertex_attr_array![0 => Float32x2]. -/
def Vertex.ATTRIBUTES : List VertexAttribute := attrArray 0 [.Float32x2]

/-- Vertex::vertex_buffer_desc(): per-vertex stream. -/
def Vertex.vertex_buffer_desc : VertexBufferLayout :=
  ⟨Vertex.byteSize, .Vertex, Vertex.ATTRIBUTES⟩

/-- Dot sprite record (struct Dot in surface.rs). -/
structure Dot where
  position : Rat × Rat
  radius : Rat
  hardness : Rat
  color : Color4
deriving DecidableEq

/-- repr(C) byte size of Dot: vec2 + f32 + f32 + vec4 of f32 = 32 bytes. -/
def Dot.byteSize : Nat := 2 * f32Size + f32Size + f32Size + 4 * f32Size

/-- Dot::ATTRIBUTES = vertex_attr_array![1 => Float32x2, 2 => Float32, 3 => Float32, 4 => Float32x4]. -/
def Dot.ATTRIBUTES : List VertexAttribute :=
  attrArray 1 [.Float32x2, .Float32, .Float32, .Float32x4]

/-- Dot::vertex_buffer_desc(): per-instance stream. -/
def Dot.vertex_buffer_desc : VertexBufferLayout :=
  ⟨Dot.byteSize, .Instance, Dot.ATTRIBUTES⟩

/-- Byte length of the GPU buffer produced by bytemuck::cast_slice on a
list of dots. -/
def bufferByteLength (b : List Dot) : Nat := b.length * Dot.byteSize

/-- The static quad VERTICES of surface.rs: two triangles covering the
unit square. -/
def VERTICES : List Vertex :=
  [⟨(0, 0)⟩, ⟨(1, 0)⟩, ⟨(1, 1)⟩, ⟨(1, 1)⟩, ⟨(0, 1)⟩, ⟨(0, 0)⟩]

/-- Texture formats occurring in the source. -/
inductive TextureFormat
  | Rgba8UnormSrgb
  | Bgra8UnormSrgb
deriving DecidableEq

/-- Texture usage flags requested in the source. -/
inductive TextureUsage
  | COPY_SRC
  | RENDER_ATTACHMENT
  | TEXTURE_BINDING
deriving DecidableEq

/-- wgpu::Extent3d. -/
structure Extent3d where
  width : Nat
  height : Nat
  depth_or_array_layers : Nat
deriving DecidableEq

/-- wgpu::TextureDimension. -/
inductive TextureDimension
  | D1
  | D2
  | D3
deriving DecidableEq

/-- wgpu::TextureDescriptor (the fields the source sets explicitly). -/
structure TextureDescriptor where
  size : Extent3d
  mip_level_count : Nat
  sample_count : Nat
  dimension : TextureDimension
  format : TextureFormat
  usage : List TextureUsage
deriving DecidableEq

/-- wgpu::BlendFactor values relevant here. -/
inductive BlendFactor
  | Zero
  | One
  | SrcAlpha
  | OneMinusSrcAlpha
deriving DecidableEq

/-- wgpu::BlendOperation values. -/
inductive BlendOperation
  | Add
  | Subtract
  | ReverseSubtract
  | Min
  | Max
deriving DecidableEq

/-- wgpu::BlendComponent. -/
structure BlendComponent where
  src_factor : BlendFactor
  dst_factor : BlendFactor
  operation : BlendOperation
deriving DecidableEq

/-- wgpu::BlendComponent::OVER (source-over: src*1 + dst*(1-srcAlpha)). -/
def BlendComponent.OVER : BlendComponent := ⟨.One, .OneMinusSrcAlpha, .Add⟩

/-- wgpu::BlendState. -/
structure BlendState where
  color : BlendComponent
  alpha : BlendComponent
deriving DecidableEq

/-- wgpu::ColorWrites as four channel flags. -/
structure ColorWrites where
  red : Bool
  green : Bool
  blue : Bool
  alpha : Bool
deriving DecidableEq

/-- wgpu::ColorWrites::ALL. -/
def ColorWrites.ALL : ColorWrites := ⟨true, true, true, true⟩

/-- wgpu::ColorTargetState. -/
structure ColorTargetState where
  format : TextureFormat
  blend : Option BlendState
  write_mask : ColorWrites
deriving DecidableEq

/-- The From TextureFormat conversion used by format.into() in
surface_view.rs: no blending, all channels written. -/
def TextureFormat.intoColorTarget (f : TextureFormat) : ColorTargetState :=
  ⟨f, none, ColorWrites.ALL⟩

/-- Shader stage visibility values used by the source. -/
inductive ShaderStages
  | VERTEX
  | FRAGMENT
deriving DecidableEq

/-- wgpu::BufferBindingType. -/
inductive BufferBindingType
  | Uniform
  | Storage
deriving DecidableEq

/-- wgpu::TextureViewDimension (only D2 occurs). -/
inductive TextureViewDimension
  | D1
  | D2
  | D3
deriving DecidableEq

/-- wgpu::TextureSampleType (only filterable float occurs). -/
inductive TextureSampleType
  | Float (filterable : Bool)
deriving DecidableEq

/-- wgpu::SamplerBindingType. -/
inductive SamplerBindingType
  | Filtering
  | NonFiltering
deriving DecidableEq

/-- wgpu::BindingType variants used by the source. -/
inductive BindingType
  | Buffer (ty : BufferBindingType) (has_dynamic_offset : Bool) (min_binding_size : Option Nat)
  | Texture (multisampled : Bool) (view_dimension : TextureViewDimension)
      (sample_type : TextureSampleType)
  | Sampler (kind : SamplerBindingType)
deriving DecidableEq

/-- wgpu::BindGroupLayoutEntry. -/
structure BindGroupLayoutEntry where
  binding : Nat
  visibility : ShaderStages
  ty : BindingType
deriving DecidableEq

/-- wgpu::BindGroupLayout, identified with its entry list. -/
structure BindGroupLayout where
  entries : List BindGroupLayoutEntry
deriving DecidableEq

/-- A render pipeline together with the layout data the descriptors fix:
the bind group layouts of its pipeline layout, its vertex buffer
streams, and its fragment color targets. -/
structure RenderPipeline where
  bind_group_layouts : List BindGroupLayout
  vertex_buffers : List VertexBufferLayout
  fragment_targets : List ColorTargetState
deriving DecidableEq

/-- wgpu::AddressMode values. -/
inductive AddressMode
  | ClampToEdge
  | Repeat
  | MirrorRepeat
deriving DecidableEq

/-- wgpu::FilterMode values. -/
inductive FilterMode
  | Nearest
  | Linear
deriving DecidableEq

/-- wgpu::SamplerDescriptor (the addressing and filtering fields; the
remaining fields are left at their defaults by the source and are not
referenced by any claim). -/
structure SamplerDescriptor where
  address_mode_u : AddressMode
  address_mode_v : AddressMode
  address_mode_w : AddressMode
  mag_filter : FilterMode
  min_filter : FilterMode
  mipmap_filter : FilterMode
deriving DecidableEq

/-- A texture view created from a texture (create_view with the default
TextureViewDescriptor): it denotes the whole texture it was made from. -/
structure TextureView where
  texture : TextureDescriptor
deriving DecidableEq

/-- GlobalSurface of surface.rs: the shared compositor state (quad
vertex buffer contents, render pipeline, render target descriptor).
The device and queue handles are dropped. -/
structure GlobalSurface where
  vertex_buffer : List Vertex
  render_pipeline : RenderPipeline
  texture_desc : TextureDescriptor
deriving DecidableEq

/-- GlobalSurface::new of surface.rs. -/
def GlobalSurface.new : GlobalSurface :=
  let texture_desc : TextureDescriptor :=
    { size := ⟨1024, 1024, 1⟩
      mip_level_count := 1
      sample_count := 1
      dimension := .D2
      format := .Rgba8UnormSrgb
      usage := [.COPY_SRC, .RENDER_ATTACHMENT, .TEXTURE_BINDING] }
  { vertex_buffer := VERTICES
    render_pipeline :=
      { bind_group_layouts := []
        vertex_buffers := [Vertex.vertex_buffer_desc, Dot.vertex_buffer_desc]
        fragment_targets :=
          [{ format := texture_desc.format
             blend := some
               { color := ⟨.SrcAlpha, .OneMinusSrcAlpha, .Add⟩
                 alpha := BlendComponent.OVER }
             write_mask := ColorWrites.ALL }] }
    texture_desc := texture_desc }

/-- HpSurface of surface.rs: one offscreen surface. The instance buffer
is represented by its typed contents (what cast_slice uploaded). -/
structure HpSurface where
  global : GlobalSurface
  instances : List Dot
  instance_buffer : List Dot
  texture : TextureDescriptor
  texture_view : TextureView
  sampler : SamplerDescriptor
deriving DecidableEq

/-- HpSurface::new of surface.rs: one fixed red dot, an instance buffer
initialized from that list, a texture allocated from the shared
descriptor, a default view of it, and the sampler with the exact
addressing and filter modes the source sets. -/
def HpSurface.new (global : GlobalSurface) : HpSurface :=
  let instances : List Dot :=
    [{ position := (0.5, 0.5)
       radius := 0.1
       hardness := 0.5
       color := ⟨1, 0, 0, 1⟩ }]
  { global := global
    instances := instances
    instance_buffer := instances
    texture := global.texture_desc
    texture_view := ⟨global.texture_desc⟩
    sampler :=
      { address_mode_u := .ClampToEdge
        address_mode_v := .ClampToEdge
        address_mode_w := .ClampToEdge
        mag_filter := .Linear
        min_filter := .Nearest
        mipmap_filter := .Nearest } }

/-- Symbolic reference to a buffer owned by the modelled objects. -/
inductive BufferRef
  | globalVertexBuffer
  | surfaceInstanceBuffer
  | uniformBuffer
deriving DecidableEq

/-- Symbolic reference to a pipeline. -/
inductive PipelineRef
  | compositorPipeline
  | presentationPipeline
deriving DecidableEq

/-- Symbolic reference to a texture view used as render pass target. -/
inductive TextureViewRef
  | surfaceTextureView
deriving DecidableEq

/-- Symbolic reference to a bind group of the presentation bridge. -/
inductive BindGroupRef
  | uniformBindGroup
  | textureBindGroup
deriving DecidableEq

/-- wgpu::LoadOp for a color attachment. -/
inductive LoadOp
  | Clear (color : Color4)
  | Load
deriving DecidableEq

/-- Commands recorded into a render pass, reified. `draw a b c d` stands
for draw(a..b, c..d): vertex range a..b, instance range c..d. -/
inductive RenderCmd
  | beginRenderPass (view : TextureViewRef) (load : LoadOp) (store : Bool)
  | setPipeline (p : PipelineRef)
  | setVertexBuffer (slot : Nat) (buffer : BufferRef)
  | setBindGroup (index : Nat) (group : BindGroupRef)
  | draw (vertexStart vertexEnd instanceStart instanceEnd : Nat)
deriving DecidableEq

/-- HpSurface::render of surface.rs, as the exact list of commands it
records: one pass targeting the surface's own view with store enabled,
cleared to wgpu::Color::GREEN, then pipeline, quad buffer at slot 0,
instance buffer at slot 1, then draw(0..6, 0..1). It takes &self and
mutates no CPU-side state. -/
def HpSurface.render (_s : HpSurface) : List RenderCmd :=
  [ RenderCmd.beginRenderPass .surfaceTextureView (.Clear Color.GREEN) true,
    RenderCmd.setPipeline .compositorPipeline,
    RenderCmd.setVertexBuffer 0 .globalVertexBuffer,
    RenderCmd.setVertexBuffer 1 .surfaceInstanceBuffer,
    RenderCmd.draw 0 6 0 1 ]

/-- Instance ranges (start, end) of the draw calls in a command list. -/
def drawInstanceRanges (cmds : List RenderCmd) : List (Nat × Nat) :=
  cmds.filterMap fun c =>
    match c with
    | .draw _ _ is ie => some (is, ie)
    | _ => none

/-- Reachable HpSurface states. The repository constructs HpSurface only
through HpSurface::new applied to the shared GlobalSurface::new, and
HpSurface exposes exactly one further method, render(&self), which does
not mutate the surface, so construction is the only state producer. -/
inductive HpSurface.Reachable : HpSurface → Prop
  | new : Reachable (HpSurface.new GlobalSurface.new)

/-- A resource bound in a bind group. -/
inductive BindingResource
  | buffer (b : BufferRef)
  | textureView (v : TextureView)
  | sampler (s : SamplerDescriptor)
deriving DecidableEq

/-- A bind group: binding index paired with the bound resource. -/
structure BindGroup where
  entries : List (Nat × BindingResource)
deriving DecidableEq

/-- SurfaceRenderResources of surface_view.rs: the presentation bridge.
The uniform buffer is represented by its f32 contents (four floats,
16 bytes). -/
structure SurfaceRenderResources where
  pipeline : RenderPipeline
  bind_group : BindGroup
  texture_bind_group : BindGroup
  uniform_buffer : List Rat
  surface : HpSurface
deriving DecidableEq

/-- SurfaceRenderResources::new of surface_view.rs. Construction is a
total function: it performs no comparison between the given format and
any other format, and has no failure path. -/
def SurfaceRenderResources.new (surface : HpSurface) (format : TextureFormat) :
    SurfaceRenderResources :=
  let bind_group_layout : BindGroupLayout :=
    ⟨[{ binding := 0
        visibility := .VERTEX
        ty := .Buffer .Uniform false (some 16) }]⟩
  let texture_bind_group_layout : BindGroupLayout :=
    ⟨[{ binding := 0
        visibility := .FRAGMENT
        ty := .Texture false .D2 (.Float true) },
      { binding := 1
        visibility := .FRAGMENT
        ty := .Sampler .Filtering }]⟩
  { pipeline :=
      { bind_group_layouts := [bind_group_layout, texture_bind_group_layout]
        vertex_buffers := []
        fragment_targets := [format.intoColorTarget] }
    bind_group := ⟨[(0, .buffer .uniformBuffer)]⟩
    texture_bind_group :=
      ⟨[(0, .textureView surface.texture_view), (1, .sampler surface.sampler)]⟩
    uniform_buffer := [0, 0, 0, 0]
    surface := surface }

/-- An effect performed by prepare, in order: running the offscreen
surface's render (submitting its command list), or a queue.write_buffer
call with target buffer, byte offset and f32 payload. -/
inductive PrepareEffect
  | surfaceRender (cmds : List RenderCmd)
  | writeBuffer (target : BufferRef) (offset : Nat) (data : List Rat)
deriving DecidableEq

/-- SurfaceRenderResources::prepare of surface_view.rs: first
self.surface.render(), then queue.write_buffer(uniform_buffer, 0,
[0.0, 0.0, 0.0, 0.0]). It takes &self and mutates no CPU-side state. -/
def SurfaceRenderResources.prepare (r : SurfaceRenderResources) : List PrepareEffect :=
  [ PrepareEffect.surfaceRender r.surface.render,
    PrepareEffect.writeBuffer .uniformBuffer 0 [0, 0, 0, 0] ]

/-- SurfaceRenderResources::paint of surface_view.rs: set the
presentation pipeline, both bind groups, and draw(0..6, 0..1). It
allocates nothing and checks nothing. -/
def SurfaceRenderResources.paint (_r : SurfaceRenderResources) : List RenderCmd :=
  [ RenderCmd.setPipeline .presentationPipeline,
    RenderCmd.setBindGroup 0 .uniformBindGroup,
    RenderCmd.setBindGroup 1 .textureBindGroup,
    RenderCmd.draw 0 6 0 1 ]

/-- Observable GPU state relevant to prepare: the offscreen texture
contents, fully determined by the command list of the last render pass
executed against it (rendering is deterministic: the same submitted
commands produce the same pixels), and the uniform buffer contents. -/
structure GpuState where
  surfaceTexture : Option (List RenderCmd)
  uniformData : List Rat
deriving DecidableEq

/-- Execute one prepare effect against the GPU state. A surface render
replaces the offscreen texture contents with the result of its command
list; the uniform write at offset 0 with a 16-byte payload replaces the
whole 16-byte uniform buffer. -/
def applyEffect (st : GpuState) (e : PrepareEffect) : GpuState :=
  match e with
  | .surfaceRender cmds => { st with surfaceTexture := some cmds }
  | .writeBuffer .uniformBuffer _ data => { st with uniformData := data }
  | .writeBuffer _ _ _ => st

/-- Run one prepare call against the GPU state. -/
def SurfaceRenderResources.runPrepare (r : SurfaceRenderResources) (st : GpuState) :
    GpuState :=
  r.prepare.foldl applyEffect st

/-- Modelled from the spec and wgpu's documented draw-time validation
(the repository itself contains no format check in new or paint): a draw
issued by paint into a host render pass is accepted exactly when every
color target format of the pipeline bound by paint equals the pass's
attachment format. -/
def formatCompatible (r : SurfaceRenderResources) (passFormat : TextureFormat) : Prop :=
  ∀ t ∈ r.pipeline.fragment_targets, t.format = passFormat

instance (r : SurfaceRenderResources) (f : TextureFormat) :
    Decidable (formatCompatible r f) := by
  unfold formatCompatible
  infer_instance

/-- Claim C1: for every reachable offscreen surface holding a list of N
dots, the instance buffer's byte length is N times the 32-byte size of
Dot, and render issues a draw call whose instance range is exactly 0..N.
(In the code the only reachable list is the single initial dot, N = 1,
and render's hard-coded instance range 0..1 coincides with 0..N.) -/
theorem c1_instance_buffer_length_and_draw_range (s : HpSurface)
    (h : s.Reachable) :
    bufferByteLength s.instance_buffer = s.instances.length * 32 ∧
    drawInstanceRanges s.render = [(0, s.instances.length)] := by
  cases h
  exact ⟨rfl, rfl⟩

/-- Witness for C1 at the reachable surface built from the shared
compositor. -/
theorem c1_witness :
    (HpSurface.new GlobalSurface.new).Reachable ∧
    (bufferByteLength (HpSurface.new GlobalSurface.new).instance_buffer =
        (HpSurface.new GlobalSurface.new).instances.length * 32 ∧
      drawInstanceRanges (HpSurface.new GlobalSurface.new).render =
        [(0, (HpSurface.new GlobalSurface.new).instances.length)]) :=
  ⟨HpSurface.Reachable.new,
    c1_instance_buffer_length_and_draw_range _ HpSurface.Reachable.new⟩

/-- Claim C2: render() records exactly one render pass targeting the
surface's own texture view, cleared to a background color (GREEN) with
store enabled, then binds the compositor pipeline, the shared quad
buffer at slot 0 and the surface's instance buffer at slot 1, and issues
exactly one draw whose vertex range is 0..(quad vertex count) = 0..6 and
whose instance range is 0..(number of dots). The clear is the first
command and happens unconditionally, independent of the instance count;
no reachable surface has zero instances, so the zero-instance case of
the claim is vacuous in this program. -/
theorem c2_render_command_trace (s : HpSurface) (h : s.Reachable) :
    s.render =
      [ RenderCmd.beginRenderPass .surfaceTextureView (.Clear Color.GREEN) true,
        RenderCmd.setPipeline .compositorPipeline,
        RenderCmd.setVertexBuffer 0 .globalVertexBuffer,
        RenderCmd.setVertexBuffer 1 .surfaceInstanceBuffer,
        RenderCmd.draw 0 s.global.vertex_buffer.length 0 s.instances.length ] := by
  cases h
  rfl

/-- Witness for C2 at the reachable surface built from the shared
compositor. -/
theorem c2_witness :
    (HpSurface.new GlobalSurface.new).Reachable ∧
    (HpSurface.new GlobalSurface.new).render =
      [ RenderCmd.beginRenderPass .surfaceTextureView (.Clear Color.GREEN) true,
        RenderCmd.setPipeline .compositorPipeline,
        RenderCmd.setVertexBuffer 0 .globalVertexBuffer,
        RenderCmd.setVertexBuffer 1 .surfaceInstanceBuffer,
        RenderCmd.draw 0 (HpSurface.new GlobalSurface.new).global.vertex_buffer.length
          0 (HpSurface.new GlobalSurface.new).instances.length ] :=
  ⟨HpSurface.Reachable.new, c2_render_command_trace _ HpSurface.Reachable.new⟩

/-- Claim C3: every prepare call performs exactly two effects, in order:
first the wrapped offscreen surface's render (its full command list),
and only afterwards the write of the updated uniform values (16 bytes at
offset 0) into the uniform buffer. -/
theorem c3_prepare_renders_then_writes_uniforms (r : SurfaceRenderResources) :
    r.prepare =
      [ PrepareEffect.surfaceRender r.surface.render,
        PrepareEffect.writeBuffer .uniformBuffer 0 [0, 0, 0, 0] ] :=
  rfl

/-- Claim C4: running prepare twice with no intervening state change
yields exactly the same GPU state (offscreen texture contents and
uniform buffer contents) as running it once: prepare reads only the
unchanged resources object, so the texture is redrawn from the identical
command list and the uniform buffer is rewritten with identical bytes. -/
theorem c4_prepare_idempotent (r : SurfaceRenderResources) (st : GpuState) :
    r.runPrepare (r.runPrepare st) = r.runPrepare st :=
  rfl

/-- Claim C5: the compositor pipeline's sole color target uses standard
source-over color blending: source factor SrcAlpha, destination factor
OneMinusSrcAlpha, operation Add. -/
theorem c5_compositor_blend_source_over :
    (GlobalSurface.new.render_pipeline.fragment_targets.map fun t =>
        t.blend.map fun b => b.color) =
      [some { src_factor := .SrcAlpha, dst_factor := .OneMinusSrcAlpha, operation := .Add }] :=
  rfl

/-- Claim C6: the compositor pipeline has an empty bind group layout
list and exactly two vertex input streams: a per-vertex stream of stride
8 whose single attribute is a Float32x2 at shader location 0, and a
per-instance stream of stride 32 carrying Float32x2 position at location
1 (offset 0), Float32 radius at location 2 (offset 8), Float32 hardness
at location 3 (offset 12) and Float32x4 color at location 4 (offset 16). -/
theorem c6_compositor_pipeline_inputs :
    GlobalSurface.new.render_pipeline.bind_group_layouts = [] ∧
    GlobalSurface.new.render_pipeline.vertex_buffers =
      [ { array_stride := 8
          step_mode := .Vertex
          attributes := [⟨0, 0, .Float32x2⟩] },
        { array_stride := 32
          step_mode := .Instance
          attributes :=
            [⟨1, 0, .Float32x2⟩, ⟨2, 8, .Float32⟩, ⟨3, 12, .Float32⟩,
              ⟨4, 16, .Float32x4⟩] } ] := by
  exact ⟨rfl, by decide⟩

/-- Counterexample to claim C7 as stated: the sampler created by
HpSurface::new is not linear in every filter — its minification and
mipmap filters are Nearest, not Linear (only magnification is Linear). -/
theorem c7_counterexample :
    (HpSurface.new GlobalSurface.new).sampler.min_filter ≠ FilterMode.Linear ∧
    (HpSurface.new GlobalSurface.new).sampler.mipmap_filter ≠ FilterMode.Linear := by
  decide

/-- Claim C7 amended: constructing an offscreen surface allocates a
texture with exactly the compositor's declared descriptor (hence its
size and format), a view of that texture, and a sampler that is
clamp-to-edge in every addressing dimension, with a Linear magnification
filter and Nearest minification and mipmap filters. -/
theorem c7_texture_view_and_sampler (g : GlobalSurface) :
    (HpSurface.new g).texture = g.texture_desc ∧
    (HpSurface.new g).texture_view = ⟨g.texture_desc⟩ ∧
    (HpSurface.new g).sampler =
      { address_mode_u := .ClampToEdge
        address_mode_v := .ClampToEdge
        address_mode_w := .ClampToEdge
        mag_filter := .Linear
        min_filter := .Nearest
        mipmap_filter := .Nearest } :=
  ⟨rfl, rfl, rfl⟩

/-- Claim C8: the presentation pipeline has no vertex buffer streams;
its bind group layout 0 has one entry, binding 0, a uniform buffer with
minimum binding size 16 visible to the vertex stage; its bind group
layout 1 has binding 0 a non-multisampled 2D filterable-float sampled
texture and binding 1 a filtering sampler, both visible to the fragment
stage. -/
theorem c8_presentation_pipeline_layout (surface : HpSurface) (format : TextureFormat) :
    (SurfaceRenderResources.new surface format).pipeline.vertex_buffers = [] ∧
    (SurfaceRenderResources.new surface format).pipeline.bind_group_layouts =
      [ ⟨[{ binding := 0
            visibility := .VERTEX
            ty := .Buffer .Uniform false (some 16) }]⟩,
        ⟨[{ binding := 0
            visibility := .FRAGMENT
            ty := .Texture false .D2 (.Float true) },
          { binding := 1
            visibility := .FRAGMENT
            ty := .Sampler .Filtering }]⟩ ] :=
  ⟨rfl, rfl⟩

/-- Counterexample to claim C9 as stated: a mismatched format is not
rejected at construction time. Construction is a total function that
receives no host pass format to compare against: constructing the bridge
with Bgra8UnormSrgb completes and fixes that format as the pipeline's
color target, and the mismatch with an Rgba8UnormSrgb host pass
manifests only as a failed paint-time draw-compatibility check. -/
theorem c9_counterexample :
    (SurfaceRenderResources.new (HpSurface.new GlobalSurface.new)
          .Bgra8UnormSrgb).pipeline.fragment_targets =
      [TextureFormat.intoColorTarget .Bgra8UnormSrgb] ∧
    ¬ formatCompatible
        (SurfaceRenderResources.new (HpSurface.new GlobalSurface.new) .Bgra8UnormSrgb)
        .Rgba8UnormSrgb := by
  exact ⟨rfl, by decide⟩

/-- Claim C9 amended: paint's draw into a host render pass of target
format G is compatible exactly when G equals the target_format the
bridge was constructed with; the mismatch is detected at paint (draw)
time by pipeline-pass compatibility validation, not at construction,
since SurfaceRenderResources::new receives no host pass format and
always succeeds. -/
theorem c9_paint_format_compatibility (surface : HpSurface)
    (f g : TextureFormat) :
    formatCompatible (SurfaceRenderResources.new surface f) g ↔ g = f := by
  constructor
  · intro h
    exact (h f.intoColorTarget (by simp [SurfaceRenderResources.new])).symm
  · intro h t ht
    simp [SurfaceRenderResources.new] at ht
    simp [ht, TextureFormat.intoColorTarget, h]

/-- Claim C10: every reachable offscreen surface holds exactly the one
initial dot at position (0.5, 0.5) with radius 0.1, hardness 0.5, opaque
red color (1,0,0,1), and its instance buffer holds exactly the upload of
that list. HpSurface's only other operation, render(&self), produces a
command list without touching the surface, so both stay fixed for the
surface's lifetime. -/
theorem c10_fixed_single_red_dot (s : HpSurface) (h : s.Reachable) :
    s.instances =
      [{ position := (0.5, 0.5)
         radius := 0.1
         hardness := 0.5
         color := ⟨1, 0, 0, 1⟩ }] ∧
    s.instance_buffer = s.instances := by
  cases h
  exact ⟨rfl, rfl⟩

/-- Witness for C10 at the reachable surface built from the shared
compositor. -/
theorem c10_witness :
    (HpSurface.new GlobalSurface.new).Reachable ∧
    ((HpSurface.new GlobalSurface.new).instances =
        [{ position := (0.5, 0.5)
           radius := 0.1
           hardness := 0.5
           color := ⟨1, 0, 0, 1⟩ }] ∧
      (HpSurface.new GlobalSurface.new).instance_buffer =
        (HpSurface.new GlobalSurface.new).instances) :=
  ⟨HpSurface.Reachable.new, c10_fixed_single_red_dot _ HpSurface.Reachable.new⟩

end Gpu
